import Mathlib

/-!
Shallow embedding of the QRKirana core logic: the recurring-delivery
scheduler (`calculateNextDelivery` from `src/app/api/deliveries/route.ts`,
duplicated verbatim in the subscriptions route) and the credit ledger
(`POST` of `src/app/api/credit/transactions/route.ts`, `calculateCreditScore`,
and `createCreditAccount` from the credit-accounts route).

Instants are modelled as natural numbers of milliseconds on a linear civil
timeline with all days of equal length (no DST), matching the arithmetic the
JS code performs with `setHours` / `setDate`. The epoch day is a Thursday,
as for the JS epoch, so weekday index 0 is sunday.
-/

/-- Length of one day in milliseconds. -/
def dayLen : Nat := 86400000

/-- Midnight of the calendar day containing `t`. -/
def startOfDay (t : Nat) : Nat := (t / dayLen) * dayLen

/-- JS `d.setHours(h, m, 0, 0)`: same calendar day, time of day `h:m:00.000`. -/
def setTime (t h m : Nat) : Nat := startOfDay t + (h * 60 + m) * 60000

/-- JS weekday index of `t` (`Date.getDay`): 0 = sunday; the epoch day is a
Thursday (index 4). -/
def dayOfWeekIdx (t : Nat) : Nat := (t / dayLen + 4) % 7

/-- The `dayNames` array of `calculateNextDelivery`. -/
def dayNames : List String :=
  ["sunday", "monday", "tuesday", "wednesday", "thursday", "friday", "saturday"]

/-- `dayNames[t.getDay()]`. -/
def dayName (t : Nat) : String := dayNames.getD (dayOfWeekIdx t) ""

/-- JS `s.split(sep)` on a single-character separator, over the char list. -/
def splitOnCharList (c : Char) : List Char → List (List Char)
  | [] => [[]]
  | x :: xs =>
    let r := splitOnCharList c xs
    if x = c then [] :: r
    else
      match r with
      | [] => [[x]]
      | y :: ys => (x :: y) :: ys

/-- JS `s.split(sep)` on a single-character separator. -/
def splitOnChar (c : Char) (s : String) : List String :=
  (splitOnCharList c s.data).map (fun l => String.mk l)

/-- JS `Number(s)` restricted to strings of decimal digits; `none` models the
`NaN` produced on any other string (the empty string is `0`, as in JS). -/
def jsToNat (s : String) : Option Nat :=
  s.data.foldl
    (fun acc c =>
      match acc with
      | none => none
      | some n => if c.isDigit then some (n * 10 + (c.toNat - 48)) else none)
    (some 0)

/-- JS `String.prototype.trim`: strip whitespace from both ends. -/
def jsTrim (s : String) : String :=
  String.mk (((s.data.dropWhile Char.isWhitespace).reverse.dropWhile
    Char.isWhitespace).reverse)

/-- JS `String.prototype.toLowerCase` on the ASCII range. -/
def jsToLower (s : String) : String :=
  String.mk (s.data.map (fun c =>
    if 'A' ≤ c ∧ c ≤ 'Z' then Char.ofNat (c.toNat + 32) else c))

/-- `deliveryTime.split(":").map(Number)` destructured as `[hours, minutes]`,
for a well-formed `HH:MM` string; a string that does not parse to two
numbers yields `none` (the JS code would produce an Invalid Date). -/
def parseTime (s : String) : Option (Nat × Nat) :=
  match splitOnChar ':' s with
  | [h, m] =>
    match jsToNat h, jsToNat m with
    | some hh, some mm => some (hh, mm)
    | _, _ => none
  | _ => none

/-- The `daily` loop: `while (nextDate <= now) nextDate.setDate(getDate()+1)`. -/
def advanceDaily (now t : Nat) : Nat :=
  if h : t ≤ now then advanceDaily now (t + dayLen) else t
termination_by now + 1 - t
decreasing_by simp [dayLen]; omega

/-- The `weekly` loop: `while (nextDate <= now) nextDate.setDate(getDate()+7)`. -/
def advanceWeekly (now t : Nat) : Nat :=
  if h : t ≤ now then advanceWeekly now (t + 7 * dayLen) else t
termination_by now + 1 - t
decreasing_by simp [dayLen]; omega

/-- The `custom` loop: while the candidate is not past `now`, add one day;
a day whose weekday name is not in `days` is skipped via `continue`; a day
past `now` whose weekday is allowed exits via `break`. -/
def advanceCustom (days : List String) (now t : Nat) : Nat :=
  if h : t ≤ now then
    let t2 := t + dayLen
    if days.contains (dayName t2) then
      if now < t2 then t2 else advanceCustom days now t2
    else advanceCustom days now t2
  else t
termination_by now + 1 - t
decreasing_by all_goals (simp [dayLen]; omega)

/-- The part of `calculateNextDelivery` before the frequency `switch`:
start from `now` when the start date is in the past (otherwise from the
start date), apply the delivery time of day, and move one day forward when
the result is not strictly after `now`. -/
def adjustDate (h m startDate now : Nat) : Nat :=
  let nd0 := if startDate < now then now else startDate
  let nd1 := setTime nd0 h m
  if nd1 ≤ now then nd1 + dayLen else nd1

/-- `calculateNextDelivery(frequency, deliveryTime, deliveryDays, startDate)`
from `src/app/api/deliveries/route.ts` (the subscriptions route holds an
identical copy). `now` — `new Date()` in the source — is passed explicitly.
`none` models the Invalid Date produced by an unparseable `deliveryTime`. -/
def calculateNextDelivery (frequency deliveryTime : String)
    (deliveryDays : Option String) (startDate now : Nat) : Option Nat :=
  match parseTime deliveryTime with
  | none => none
  | some (hh, mm) =>
    let nd := adjustDate hh mm startDate now
    some (
      if frequency = "daily" then advanceDaily now nd
      else if frequency = "weekly" then advanceWeekly now nd
      else if frequency = "custom" then
        match deliveryDays with
        | some s => advanceCustom ((splitOnChar ',' s).map (fun d => jsToLower (jsTrim d))) now nd
        | none => nd
      else nd)

theorem adjustDate_gt_now (h m s n : Nat) : n < adjustDate h m s n := by
  simp only [adjustDate, setTime, startOfDay, dayLen]
  have hdiv : n / 86400000 ≤ s / 86400000 → n / 86400000 * 86400000 ≤ s / 86400000 * 86400000 :=
    fun hd => Nat.mul_le_mul_right _ hd
  split <;> split <;> omega

theorem advanceDaily_id (now t : Nat) (h : now < t) : advanceDaily now t = t := by
  rw [advanceDaily]
  simp [Nat.not_le.mpr h]

theorem advanceWeekly_id (now t : Nat) (h : now < t) : advanceWeekly now t = t := by
  rw [advanceWeekly]
  simp [Nat.not_le.mpr h]

theorem advanceCustom_id (days : List String) (now t : Nat) (h : now < t) :
    advanceCustom days now t = t := by
  rw [advanceCustom]
  simp [Nat.not_le.mpr h]

theorem calculateNextDelivery_loopFree (f dt : String) (dd : Option String)
    (s n : Nat) :
    calculateNextDelivery f dt dd s n =
      (parseTime dt).map (fun p => adjustDate p.1 p.2 s n) := by
  unfold calculateNextDelivery
  cases hp : parseTime dt with
  | none => rfl
  | some p =>
    obtain ⟨hh, mm⟩ := p
    have hgt := adjustDate_gt_now hh mm s n
    simp only [Option.map_some]
    congr 1
    split
    · exact advanceDaily_id _ _ hgt
    · split
      · exact advanceWeekly_id _ _ hgt
      · split
        · cases dd with
          | none => rfl
          | some str => exact advanceCustom_id _ _ _ hgt
        · rfl

/-- Claim C1: for every valid input (frequency among daily, weekly and custom,
a well-formed `HH:MM` delivery time, any reference instant `s` and any `n`
standing for now), `calculateNextDelivery` returns an instant strictly
greater than now. -/
theorem claim_C1_nextDelivery_strictly_future (f dt : String) (dd : Option String)
    (s n r : Nat) (hf : f = "daily" ∨ f = "weekly" ∨ f = "custom")
    (hr : calculateNextDelivery f dt dd s n = some r) : n < r := by
  rw [calculateNextDelivery_loopFree] at hr
  cases hp : parseTime dt with
  | none => rw [hp] at hr; simp at hr
  | some p =>
    rw [hp] at hr
    have heq : adjustDate p.1 p.2 s n = r := by simpa using hr
    exact heq ▸ adjustDate_gt_now p.1 p.2 s n

/-- Witness for C1 at a concrete input: frequency `daily`, delivery time
`06:00`, reference instant 0, now = Monday 1970-01-19 07:00 (in ms). -/
theorem claim_C1_witness :
    calculateNextDelivery "daily" "06:00" none 0 370800000 = some 453600000 ∧
      370800000 < 453600000 := by
  have heval : calculateNextDelivery "daily" "06:00" none 0 370800000 =
      some 453600000 := by
    rw [calculateNextDelivery_loopFree]; rfl
  exact ⟨heval, claim_C1_nextDelivery_strictly_future "daily" "06:00" none 0
    370800000 453600000 (Or.inl rfl) heval⟩

/-- Counterexample to C2: frequency `custom`, dayMask `monday,thursday`,
delivery time `06:00`, reference instant = Monday 1970-01-05 06:00, now =
Monday 1970-01-19 07:00. The result is Tuesday 1970-01-20 06:00, whose
weekday name `tuesday` is not a member of the mask: the custom loop never
runs because the candidate is already strictly after now. -/
theorem claim_C2_counterexample :
    calculateNextDelivery "custom" "06:00" (some "monday,thursday")
        367200000 1580400000 = some 1663200000 ∧
      dayName 1663200000 = "tuesday" ∧
      ((splitOnChar ',' "monday,thursday").map
        (fun d => jsToLower (jsTrim d))).contains (dayName 1663200000) = false := by
  refine ⟨?_, by decide, by decide⟩
  rw [calculateNextDelivery_loopFree]; rfl

/-- Claim C2 as amended: for frequency `custom` and any dayMask, the result
is the time-adjusted candidate `adjustDate` unchanged — the per-day loop
never executes because the candidate is already strictly after now when the
loop is reached, so the dayMask has no effect and the returned weekday need
not belong to it. -/
theorem claim_C2_custom_ignores_dayMask (dt : String) (dd : Option String)
    (s n hh mm : Nat) (hp : parseTime dt = some (hh, mm)) :
    calculateNextDelivery "custom" dt dd s n = some (adjustDate hh mm s n) := by
  rw [calculateNextDelivery_loopFree, hp]; rfl

/-- Witness for the amended C2 at a concrete input. -/
theorem claim_C2_witness :
    parseTime "06:00" = some (6, 0) ∧
      calculateNextDelivery "custom" "06:00" (some "monday,thursday")
        367200000 1580400000 = some (adjustDate 6 0 367200000 1580400000) :=
  ⟨rfl, claim_C2_custom_ignores_dayMask "06:00" (some "monday,thursday")
    367200000 1580400000 6 0 rfl⟩

/-- Counterexample to C3: subscription `weekly`, delivery time `06:00`,
reference instant = Monday 1970-01-05 06:00 (two weeks before now), now =
Monday 1970-01-19 07:00. The code returns Tuesday 1970-01-20 06:00
(weekday index 2), not the following Monday 1970-01-26 06:00
(2181600000 ms): the seven-day loop never runs and the result is not on
now's weekday (index 1). -/
theorem claim_C3_counterexample :
    calculateNextDelivery "weekly" "06:00" none 367200000 1580400000 =
        some 1663200000 ∧
      dayOfWeekIdx 1580400000 = 1 ∧
      dayOfWeekIdx 1663200000 = 2 ∧
      (1663200000 : Nat) ≠ 2181600000 := by
  refine ⟨?_, by decide, by decide, by decide⟩
  rw [calculateNextDelivery_loopFree]; rfl

/-- Claim C3 as amended: for frequency `weekly` the seven-day loop never
executes — the candidate is already strictly after now when the switch is
reached — so the result is the time-adjusted candidate `adjustDate`
unchanged: `max(reference, now)` at the delivery time of day, moved one day
forward when not strictly after now; it is not in general on the reference
instant's weekday. -/
theorem claim_C3_weekly_no_seven_day_step (dt : String) (dd : Option String)
    (s n hh mm : Nat) (hp : parseTime dt = some (hh, mm)) :
    calculateNextDelivery "weekly" dt dd s n = some (adjustDate hh mm s n) := by
  rw [calculateNextDelivery_loopFree, hp]; rfl

/-- Witness for the amended C3 at the scenario input. -/
theorem claim_C3_witness :
    parseTime "06:00" = some (6, 0) ∧
      calculateNextDelivery "weekly" "06:00" none 367200000 1580400000 =
        some (adjustDate 6 0 367200000 1580400000) :=
  ⟨rfl, claim_C3_weekly_no_seven_day_step "06:00" none 367200000 1580400000
    6 0 rfl⟩

/-- Claim C10: `calculateNextDelivery` terminates on every input — with any
frequency string and any (empty, malformed or absent) deliveryDays — and in
fact none of the per-frequency while-loops ever iterates: the function
always equals the loop-free time adjustment applied to the parsed delivery
time (with `none` modelling the Invalid Date of an unparseable time). -/
theorem claim_C10_total_and_loop_free (f dt : String) (dd : Option String)
    (s n : Nat) :
    calculateNextDelivery f dt dd s n =
      (parseTime dt).map (fun p => adjustDate p.1 p.2 s n) :=
  calculateNextDelivery_loopFree f dt dd s n

/-! ## Credit ledger (`src/app/api/credit/transactions/route.ts` and the
credit-accounts route) -/

/-- The transaction `type` enum of `transactionSchema`. -/
inductive TxType
  | CREDIT
  | DEBIT
  | PAYMENT
  | ADJUSTMENT
  | INTEREST
  | FEE
deriving DecidableEq

/-- `z.enum(["CREDIT", "DEBIT", "PAYMENT", "ADJUSTMENT", "INTEREST", "FEE"])`. -/
def parseTxType (s : String) : Option TxType :=
  if s = "CREDIT" then some TxType.CREDIT
  else if s = "DEBIT" then some TxType.DEBIT
  else if s = "PAYMENT" then some TxType.PAYMENT
  else if s = "ADJUSTMENT" then some TxType.ADJUSTMENT
  else if s = "INTEREST" then some TxType.INTEREST
  else if s = "FEE" then some TxType.FEE
  else none

/-- A raw transaction request body; amounts are JS numbers, modelled as ℚ. -/
structure TransactionRequest where
  accountId : String
  type : String
  amount : Rat
deriving DecidableEq

/-- A request accepted by `transactionSchema`. -/
structure ValidatedTransaction where
  accountId : String
  type : TxType
  amount : Rat
deriving DecidableEq

/-- `transactionSchema.parse`: `accountId` must be a string, `type` one of the
six enum values, `amount` any number (`z.number()` — no sign constraint). -/
def transactionSchemaParse (r : TransactionRequest) : Option ValidatedTransaction :=
  (parseTxType r.type).map
    (fun t => { accountId := r.accountId, type := t, amount := r.amount })

/-- The customer fields `calculateCreditScore` reads. -/
structure Customer where
  totalOrders : Int
  totalSpent : Rat
deriving DecidableEq

/-- The shop credit settings field the score function reads. -/
structure CreditSettings where
  minCreditScore : Int
deriving DecidableEq

/-- `calculateCreditScore(customer, settings)` as defined in
`src/app/api/credit/transactions/route.ts` (the credit-accounts route holds
an identical copy). -/
def calculateCreditScore (customer : Customer) (settings : Option CreditSettings) :
    Int :=
  let score : Int := 100
  let score := if customer.totalOrders < 5 then score - 10
    else if customer.totalOrders < 10 then score - 5
    else score
  let score := if customer.totalSpent < 1000 then score - 15
    else if customer.totalSpent < 5000 then score - 8
    else if customer.totalSpent < 10000 then score - 3
    else score
  let score := if customer.totalSpent > 50000 then score + 10
    else if customer.totalSpent > 20000 then score + 5
    else score
  let score := match settings with
    | some cfg => if score < cfg.minCreditScore then cfg.minCreditScore else score
    | none => score
  min 100 (max 0 score)

/-- The credit-account fields the transaction handler reads and writes. -/
structure CreditAccount where
  isActive : Bool
  creditLimit : Rat
  currentBalance : Rat
  availableCredit : Rat
  creditScore : Int
  lastPaymentDate : Option Nat
deriving DecidableEq

/-- An immutable `CreditTransaction` ledger row: type, amount, and the
balance snapshot recorded with it. -/
structure CreditTransactionEntry where
  type : TxType
  amount : Rat
  balance : Rat
deriving DecidableEq

/-- The persistent state the transaction handler touches: the account, its
append-only ledger, and the customer / settings rows read for the score
recomputation after a payment. -/
structure LedgerState where
  account : CreditAccount
  ledger : List CreditTransactionEntry
  customer : Option Customer
  settings : Option CreditSettings
deriving DecidableEq

/-- The distinct handler outcomes of the transactions `POST`. -/
inductive TxResponse
  | inactive
  | limitExceeded
  | success
deriving DecidableEq

/-- The `newBalance` computed by the `switch` on the transaction type. -/
def txnNewBalance (acct : CreditAccount) (ty : TxType) (amount : Rat) : Rat :=
  match ty with
  | TxType.CREDIT => acct.currentBalance + amount
  | TxType.DEBIT => acct.currentBalance - amount
  | TxType.PAYMENT => acct.currentBalance - amount
  | TxType.ADJUSTMENT => amount
  | TxType.INTEREST => acct.currentBalance + amount
  | TxType.FEE => acct.currentBalance - amount

/-- The `newAvailableCredit` computed by the same `switch` (before the
upper clamp). -/
def txnNewAvailable (acct : CreditAccount) (ty : TxType) (amount : Rat) : Rat :=
  match ty with
  | TxType.CREDIT => acct.availableCredit + amount
  | TxType.DEBIT => acct.availableCredit - amount
  | TxType.PAYMENT => acct.availableCredit + amount
  | TxType.ADJUSTMENT => amount
  | TxType.INTEREST => acct.availableCredit
  | TxType.FEE => acct.availableCredit

/-- The transactions `POST` after auth and account lookup: reject when the
account is inactive; compute the new balance and available credit; reject
when the new balance exceeds the credit limit; clamp available credit to
the limit from above; append the ledger row with the new balance as its
snapshot; update the account, and after a `PAYMENT` set the last-payment
date and recompute the score from the customer row when one exists. -/
def processTransaction (st : LedgerState) (ty : TxType) (amount : Rat)
    (now : Nat) : TxResponse × LedgerState :=
  if st.account.isActive = false then (TxResponse.inactive, st)
  else
    let newBalance := txnNewBalance st.account ty amount
    let newAvailable0 := txnNewAvailable st.account ty amount
    if st.account.creditLimit < newBalance then (TxResponse.limitExceeded, st)
    else
      let newAvailable :=
        if st.account.creditLimit < newAvailable0 then st.account.creditLimit
        else newAvailable0
      let entry : CreditTransactionEntry :=
        { type := ty, amount := amount, balance := newBalance }
      let acct1 :=
        { st.account with currentBalance := newBalance, availableCredit := newAvailable }
      let acct2 :=
        if ty = TxType.PAYMENT then
          let acctP := { acct1 with lastPaymentDate := some now }
          match st.customer with
          | some c =>
            let newScore := calculateCreditScore c st.settings
            if newScore ≠ st.account.creditScore then
              { acctP with creditScore := newScore }
            else acctP
          | none => acctP
        else acct1
      (TxResponse.success, { st with account := acct2, ledger := st.ledger ++ [entry] })

/-- `currentBalance` of a freshly created credit account.
Modelled from the spec: the Prisma schema holding the column default is not
among the source files; `createCreditAccount` never sets `currentBalance`,
and the spec defines `availableCredit` as `creditLimit − currentBalance`
(clamped) while creation sets `availableCredit := creditLimit`, so the
initial balance is 0. -/
def initialCurrentBalance : Rat := 0

/-- The credit-accounts `POST` after validation and the existence checks:
create the account with `availableCredit := creditLimit` and the score from
the customer history, and append the initial `CREDIT` ledger row of amount
`creditLimit` with balance snapshot `creditLimit`. -/
def createCreditAccount (creditLimit : Rat) (customer : Customer)
    (settings : Option CreditSettings) : LedgerState :=
  let score := calculateCreditScore customer settings
  { account :=
      { isActive := true
        creditLimit := creditLimit
        currentBalance := initialCurrentBalance
        availableCredit := creditLimit
        creditScore := score
        lastPaymentDate := none }
    ledger := [{ type := TxType.CREDIT, amount := creditLimit, balance := creditLimit }]
    customer := some customer
    settings := settings }

theorem clamp_eq_min (L v : Rat) : (if L < v then L else v) = min L v := by
  rcases lt_or_le L v with hlt | hle
  · rw [if_pos hlt, min_eq_left hlt.le]
  · rw [if_neg (not_lt.mpr hle), min_eq_right hle]

theorem processTransaction_success (st : LedgerState) (ty : TxType) (a : Rat)
    (now : Nat) (hactive : st.account.isActive = true)
    (hok : txnNewBalance st.account ty a ≤ st.account.creditLimit) :
    (processTransaction st ty a now).1 = TxResponse.success ∧
      (processTransaction st ty a now).2.account.currentBalance =
        txnNewBalance st.account ty a ∧
      (processTransaction st ty a now).2.account.availableCredit =
        (if st.account.creditLimit < txnNewAvailable st.account ty a then
          st.account.creditLimit else txnNewAvailable st.account ty a) ∧
      (processTransaction st ty a now).2.account.creditLimit =
        st.account.creditLimit ∧
      (processTransaction st ty a now).2.ledger =
        st.ledger ++ [⟨ty, a, txnNewBalance st.account ty a⟩] := by
  unfold processTransaction
  rw [hactive]
  simp only [Bool.true_eq_false, if_false, if_neg (not_lt.mpr hok)]
  refine ⟨trivial, ?_, ?_, ?_, trivial⟩ <;>
    cases hc : st.customer <;>
    simp only [hc] <;>
    split <;>
    (try split) <;>
    rfl

/-- A concrete active account with credit limit 100, zero balance, and full
available credit, used by the witnesses below. -/
def testAccount : CreditAccount :=
  { isActive := true, creditLimit := 100, currentBalance := 0,
    availableCredit := 100, creditScore := 80, lastPaymentDate := none }

/-- A concrete ledger state around `testAccount`. -/
def testState : LedgerState :=
  { account := testAccount, ledger := [], customer := none, settings := none }

/-- Claim C4: a transaction on an active account whose computed new balance
would exceed the credit limit returns the explicit limit-exceeded error and
leaves the whole state unchanged — no ledger row is appended and the
account's balance and available credit keep their values. -/
theorem claim_C4_limit_reject_no_change (st : LedgerState) (ty : TxType)
    (a : Rat) (now : Nat) (hactive : st.account.isActive = true)
    (hover : st.account.creditLimit < txnNewBalance st.account ty a) :
    processTransaction st ty a now = (TxResponse.limitExceeded, st) := by
  unfold processTransaction
  rw [hactive]
  simp only [Bool.true_eq_false, if_false, if_pos hover]

/-- Witness for C4: a CREDIT of 150 against limit 100 is rejected without
any state change. -/
theorem claim_C4_witness :
    testState.account.isActive = true ∧
      testState.account.creditLimit < txnNewBalance testState.account TxType.CREDIT 150 ∧
      processTransaction testState TxType.CREDIT 150 0 = (TxResponse.limitExceeded, testState) := by
  have h2 : testState.account.creditLimit < txnNewBalance testState.account TxType.CREDIT 150 := by
    norm_num [testState, testAccount, txnNewBalance]
  exact ⟨rfl, h2, claim_C4_limit_reject_no_change testState TxType.CREDIT 150 0 rfl h2⟩

/-- Claim C5: an accepted PAYMENT of amount `a` on an active account with
balance `b` and available credit `v` yields new balance `b − a` and new
available credit `min(creditLimit, v + a)`. -/
theorem claim_C5_payment (st : LedgerState) (a : Rat) (now : Nat)
    (hactive : st.account.isActive = true)
    (hok : txnNewBalance st.account TxType.PAYMENT a ≤ st.account.creditLimit) :
    (processTransaction st TxType.PAYMENT a now).1 = TxResponse.success ∧
      (processTransaction st TxType.PAYMENT a now).2.account.currentBalance =
        st.account.currentBalance - a ∧
      (processTransaction st TxType.PAYMENT a now).2.account.availableCredit =
        min st.account.creditLimit (st.account.availableCredit + a) := by
  obtain ⟨h1, h2, h3, _, _⟩ := processTransaction_success st TxType.PAYMENT a now hactive hok
  refine ⟨h1, ?_, ?_⟩
  · rw [h2]; rfl
  · rw [h3, clamp_eq_min]; rfl

/-- Witness for C5: a PAYMENT of 30 against `testState` gives balance −30
and available credit `min(100, 130) = 100`. -/
theorem claim_C5_witness :
    txnNewBalance testState.account TxType.PAYMENT 30 ≤ testState.account.creditLimit ∧
      ((processTransaction testState TxType.PAYMENT 30 0).1 = TxResponse.success ∧
        (processTransaction testState TxType.PAYMENT 30 0).2.account.currentBalance =
          testState.account.currentBalance - 30 ∧
        (processTransaction testState TxType.PAYMENT 30 0).2.account.availableCredit =
          min testState.account.creditLimit (testState.account.availableCredit + 30)) := by
  have hok : txnNewBalance testState.account TxType.PAYMENT 30 ≤ testState.account.creditLimit := by
    norm_num [testState, testAccount, txnNewBalance]
  exact ⟨hok, claim_C5_payment testState 30 0 rfl hok⟩

/-- Counterexample to C6: a DEBIT of 200 on an active account with limit
100, balance 0 and available credit 100 is accepted (new balance −200 is
below the limit), and the resulting available credit is −100, outside
`[0, creditLimit]` — the code clamps available credit only from above. -/
theorem claim_C6_counterexample :
    (processTransaction testState TxType.DEBIT 200 0).1 = TxResponse.success ∧
      (processTransaction testState TxType.DEBIT 200 0).2.account.availableCredit = -100 ∧
      (processTransaction testState TxType.DEBIT 200 0).2.account.availableCredit < 0 := by
  obtain ⟨h1, _, h3, _, _⟩ := processTransaction_success testState TxType.DEBIT 200 0 rfl
    (by norm_num [testState, testAccount, txnNewBalance])
  have hval : (processTransaction testState TxType.DEBIT 200 0).2.account.availableCredit = -100 := by
    rw [h3]; norm_num [testState, testAccount, txnNewAvailable]
  exact ⟨h1, hval, by rw [hval]; norm_num⟩

/-- Claim C6 as amended: after every accepted transaction of any type the
account satisfies `currentBalance ≤ creditLimit` and
`availableCredit ≤ creditLimit`; the lower bound 0 on available credit is
not enforced and can be violated (see the counterexample). -/
theorem claim_C6_post_invariants (st : LedgerState) (ty : TxType) (a : Rat)
    (now : Nat) (hactive : st.account.isActive = true)
    (hok : txnNewBalance st.account ty a ≤ st.account.creditLimit) :
    (processTransaction st ty a now).2.account.currentBalance ≤
        (processTransaction st ty a now).2.account.creditLimit ∧
      (processTransaction st ty a now).2.account.availableCredit ≤
        (processTransaction st ty a now).2.account.creditLimit := by
  obtain ⟨_, h2, h3, h4, _⟩ := processTransaction_success st ty a now hactive hok
  rw [h2, h3, h4]
  exact ⟨hok, by rw [clamp_eq_min]; exact min_le_left _ _⟩

/-- Witness for the amended C6: an accepted CREDIT of 50 on `testState`. -/
theorem claim_C6_witness :
    txnNewBalance testState.account TxType.CREDIT 50 ≤ testState.account.creditLimit ∧
      ((processTransaction testState TxType.CREDIT 50 0).2.account.currentBalance ≤
          (processTransaction testState TxType.CREDIT 50 0).2.account.creditLimit ∧
        (processTransaction testState TxType.CREDIT 50 0).2.account.availableCredit ≤
          (processTransaction testState TxType.CREDIT 50 0).2.account.creditLimit) := by
  have hok : txnNewBalance testState.account TxType.CREDIT 50 ≤ testState.account.creditLimit := by
    norm_num [testState, testAccount, txnNewBalance]
  exact ⟨hok, claim_C6_post_invariants testState TxType.CREDIT 50 0 rfl hok⟩

/-- Counterexample to C7: `createCreditAccount` with limit 100 appends an
initial CREDIT ledger row whose balance snapshot is 100 while the account's
`currentBalance` at that moment is 0. -/
theorem claim_C7_counterexample :
    (createCreditAccount 100 ⟨0, 0⟩ none).ledger = [⟨TxType.CREDIT, 100, 100⟩] ∧
      (createCreditAccount 100 ⟨0, 0⟩ none).account.currentBalance = 0 ∧
      (100 : Rat) ≠ 0 := by
  exact ⟨rfl, rfl, by norm_num⟩

/-- Claim C7 as amended: every ledger row appended by the transactions POST
carries as its balance snapshot exactly the account's `currentBalance`
resulting from that transaction; the initial row written by
`createCreditAccount` does not satisfy this (its snapshot is the credit
limit while the account balance is 0). -/
theorem claim_C7_snapshot (st : LedgerState) (ty : TxType) (a : Rat) (now : Nat)
    (hactive : st.account.isActive = true)
    (hok : txnNewBalance st.account ty a ≤ st.account.creditLimit) :
    (processTransaction st ty a now).2.ledger =
      st.ledger ++ [⟨ty, a, (processTransaction st ty a now).2.account.currentBalance⟩] := by
  obtain ⟨_, h2, _, _, h5⟩ := processTransaction_success st ty a now hactive hok
  rw [h5, h2]

/-- Witness for the amended C7: an accepted CREDIT of 40 on `testState`. -/
theorem claim_C7_witness :
    txnNewBalance testState.account TxType.CREDIT 40 ≤ testState.account.creditLimit ∧
      (processTransaction testState TxType.CREDIT 40 0).2.ledger =
        testState.ledger ++ [⟨TxType.CREDIT, 40,
          (processTransaction testState TxType.CREDIT 40 0).2.account.currentBalance⟩] := by
  have hok : txnNewBalance testState.account TxType.CREDIT 40 ≤ testState.account.creditLimit := by
    norm_num [testState, testAccount, txnNewBalance]
  exact ⟨hok, claim_C7_snapshot testState TxType.CREDIT 40 0 rfl hok⟩

/-- Counterexample to C8: `calculateCreditScore` on a customer with 3 orders
and 500 spent returns 100 − 10 (order band) − 15 (spend band) = 75, not 65:
the bands of the cited function are −10 for fewer than 5 orders and −15 for
spending under 1000. -/
theorem claim_C8_counterexample :
    calculateCreditScore ⟨3, 500⟩ none = 75 ∧ (75 : Int) ≠ 65 := by
  constructor
  · norm_num [calculateCreditScore]
  · norm_num

/-- Claim C8 as amended: for a customer with `totalOrders = 3` and
`totalSpent = 500` the score is 75; with shop settings present the result is
`min 100 (max 75 minCreditScore)`, i.e. raised to the settings floor
whenever the floor exceeds 75 and capped at 100. -/
theorem claim_C8_score_3_500 (settings : Option CreditSettings) :
    calculateCreditScore ⟨3, 500⟩ settings =
      (match settings with
       | none => 75
       | some cfg => min 100 (max 75 cfg.minCreditScore)) := by
  cases settings with
  | none => norm_num [calculateCreditScore]
  | some cfg =>
    norm_num [calculateCreditScore]
    split_ifs with hf <;> omega

/-- Claim C9 as amended: `transactionSchema` does not constrain the sign of
`amount` — a request with a negative amount and a valid type string passes
validation unchanged and proceeds to the balance computation, instead of
failing with a validation error. -/
theorem claim_C9_negative_amount_validates (r : TransactionRequest) (t : TxType)
    (hneg : r.amount < 0) (ht : parseTxType r.type = some t) :
    transactionSchemaParse r = some ⟨r.accountId, t, r.amount⟩ := by
  unfold transactionSchemaParse
  rw [ht]
  rfl

/-- Witness for the amended C9: a CREDIT request of amount −50 passes
validation. -/
theorem claim_C9_witness :
    ((-50 : Rat) < 0) ∧ parseTxType "CREDIT" = some TxType.CREDIT ∧
      transactionSchemaParse ⟨"acc-1", "CREDIT", -50⟩ =
        some ⟨"acc-1", TxType.CREDIT, -50⟩ :=
  ⟨by norm_num, rfl, claim_C9_negative_amount_validates ⟨"acc-1", "CREDIT", -50⟩
    TxType.CREDIT (by norm_num) rfl⟩

/-- Counterexample to C9: a CREDIT request of amount −50 is not rejected:
it passes schema validation and, on an active account, is processed
successfully and changes the balance to −50. -/
theorem claim_C9_counterexample :
    transactionSchemaParse ⟨"acc-1", "CREDIT", -50⟩ =
        some ⟨"acc-1", TxType.CREDIT, -50⟩ ∧
      (processTransaction testState TxType.CREDIT (-50) 0).1 = TxResponse.success ∧
      (processTransaction testState TxType.CREDIT (-50) 0).2.account.currentBalance = -50 := by
  obtain ⟨h1, h2, _, _, _⟩ := processTransaction_success testState TxType.CREDIT (-50) 0 rfl
    (by norm_num [testState, testAccount, txnNewBalance])
  refine ⟨rfl, h1, ?_⟩
  rw [h2]; norm_num [testState, testAccount, txnNewBalance]
